import Mathlib

/-!
Verification of the go-system-config-service core against its specification.

The Go source is shallowly embedded: entities become structures, repository
and crypto operations become pure functions (the Mongo collections become
lists of documents, time.Now becomes an explicit clock parameter), and
fallible Go functions return Except/Option.  Go standard-library
collaborators that the repository code calls (crypto/cipher's AES-GCM and
encoding/base64) are modelled as operation bundles carrying their documented
contracts as fields.
-/

namespace SysConfig

/-! ### Bytes -/

/-- A Go byte.  `Fin 256` keeps byte-ness explicit; no byte arithmetic is
performed anywhere in the embedded code. -/
abbrev Byte := Fin 256

/-! ### internal/crypto/encryptor.go (src/unnamed/part_012)

`Encryptor` holds a 32-byte key (`NewEncryptor` rejects any other length).
`aes.NewCipher` + `cipher.NewGCM` yield an AEAD with `Seal`/`Open` and a
nonce size; `encoding/base64.StdEncoding` is an injective byte-list/string
codec.  Both are Go standard-library collaborators, embedded as the
operations the repository's code calls plus their documented laws. -/

structure Encryptor where
  key : List Byte
  /-- NewEncryptor: "encryption key must be 32 bytes for AES-256". -/
  key_len : key.length = 32
  /-- gcm.NonceSize() (12 for AES-GCM). -/
  nonceSize : Nat
  nonceSize_pos : 0 < nonceSize
  /-- gcm.Seal nil nonce pt nil: the sealed bytes (ciphertext plus tag). -/
  gcmSeal : List Byte → List Byte → List Byte
  /-- gcm.Open nil nonce ct nil: `none` is the generic authentication
  failure ("cipher: message authentication failed"). -/
  gcmOpen : List Byte → List Byte → Option (List Byte)
  /-- AEAD correctness: opening what was sealed under the same key and
  nonce recovers the plaintext. -/
  open_seal : ∀ nonce pt, gcmOpen nonce (gcmSeal nonce pt) = some pt
  /-- base64.StdEncoding.EncodeToString. -/
  b64encode : List Byte → String
  /-- base64.StdEncoding.DecodeString; `none` is the decode error. -/
  b64decode : String → Option (List Byte)
  /-- The codec round-trips. -/
  decode_encode : ∀ bs, b64decode (b64encode bs) = some bs
  /-- Encoding a non-empty byte list yields a non-empty string. -/
  encode_ne : ∀ bs, bs ≠ [] → b64encode bs ≠ ""

/-- The distinct error values `Encrypt`/`Decrypt` can return, one
constructor per distinct Go error source. -/
inductive CryptoErr
  /-- errors.New "plaintext cannot be empty" -/
  | emptyPlaintext
  /-- errors.New "ciphertext cannot be empty" -/
  | emptyCiphertext
  /-- the error returned by base64.StdEncoding.DecodeString -/
  | invalidBase64
  /-- errors.New "ciphertext too short" -/
  | tooShort
  /-- the error returned by gcm.Open (authentication failure) -/
  | authFailure
  deriving DecidableEq, Repr

/-- Encryptor.Encrypt.  The fresh random nonce drawn from crypto/rand is
passed explicitly; the Go code draws `gcm.NonceSize()` random bytes.
`gcm.Seal(nonce, nonce, []byte(plaintext), nil)` appends the sealed bytes
to the nonce, and the result is base64-encoded. -/
def Encryptor.encrypt (e : Encryptor) (nonce plaintext : List Byte) :
    Except CryptoErr String :=
  if plaintext = [] then .error .emptyPlaintext
  else .ok (e.b64encode (nonce ++ e.gcmSeal nonce plaintext))

/-- Encryptor.Decrypt: reject "", base64-decode, check the decoded length
against the nonce size, split off the nonce, and open. -/
def Encryptor.decrypt (e : Encryptor) (ciphertext : String) :
    Except CryptoErr (List Byte) :=
  if ciphertext = "" then .error .emptyCiphertext
  else
    match e.b64decode ciphertext with
    | none => .error .invalidBase64
    | some data =>
      if data.length < e.nonceSize then .error .tooShort
      else
        match e.gcmOpen (data.take e.nonceSize) (data.drop e.nonceSize) with
        | none => .error .authFailure
        | some pt => .ok pt

/-! #### A concrete Encryptor instance for witnesses

The AEAD is a toy one (it appends a key-derived tag byte and checks it on
open); the codec writes each byte as one character.  Both satisfy the
contracts the real collaborators provide. -/

/-- One character per byte (every byte value is a valid code point). -/
def bytesToString (bs : List Byte) : String := String.mk (bs.map fun b => Char.ofNat b.val)

/-- Inverse of `bytesToString` on characters below 256. -/
def byteOfChar (c : Char) : Option Byte :=
  if h : c.toNat < 256 then some ⟨c.toNat, h⟩ else none

def bytesOfChars : List Char → Option (List Byte)
  | [] => some []
  | c :: cs =>
    match byteOfChar c, bytesOfChars cs with
    | some b, some bs => some (b :: bs)
    | _, _ => none

def stringToBytes (s : String) : Option (List Byte) := bytesOfChars s.data

set_option maxRecDepth 8192 in
theorem char_roundtrip (b : Byte) : byteOfChar (Char.ofNat b.val) = some b := by
  revert b; decide

theorem stringToBytes_bytesToString (bs : List Byte) :
    stringToBytes (bytesToString bs) = some bs := by
  induction bs with
  | nil => rfl
  | cons b bs ih =>
    simp only [bytesToString, stringToBytes] at *
    simp only [List.map_cons, bytesOfChars, char_roundtrip, ih]

theorem bytesToString_ne (bs : List Byte) (h : bs ≠ []) : bytesToString bs ≠ "" := by
  cases bs with
  | nil => exact absurd rfl h
  | cons b bs =>
    intro hs
    have h2 := congrArg String.data hs
    simp [bytesToString] at h2

/-- A toy Encryptor over a given 32-byte key: the AEAD tags the sealed
bytes with the key's first byte and open checks the tag. -/
def toyEnc (key : List Byte) (hk : key.length = 32) : Encryptor where
  key := key
  key_len := hk
  nonceSize := 12
  nonceSize_pos := by decide
  gcmSeal := fun _ pt => pt ++ [key.headI]
  gcmOpen := fun _ ct =>
    if ct.getLast? = some key.headI then some ct.dropLast else none
  open_seal := by
    intro nonce pt
    simp
  b64encode := bytesToString
  b64decode := stringToBytes
  decode_encode := stringToBytes_bytesToString
  encode_ne := bytesToString_ne

def key1 : List Byte := List.replicate 32 1
def key2 : List Byte := List.replicate 32 2

def enc1 : Encryptor := toyEnc key1 (by decide)
def enc2 : Encryptor := toyEnc key2 (by decide)

def nonce0 : List Byte := List.replicate 12 0

/-- Claim C2: for every non-empty plaintext and every 32-byte key (any
`Encryptor` carries one by construction), decrypting the result of
encrypting the plaintext under that key returns the plaintext, for any
nonce of the AEAD's nonce size (the Go code draws such a nonce from
crypto/rand). -/
theorem c2_decrypt_encrypt (e : Encryptor) (nonce plaintext : List Byte) (ct : String)
    (hpt : plaintext ≠ []) (hn : nonce.length = e.nonceSize)
    (henc : e.encrypt nonce plaintext = .ok ct) :
    e.decrypt ct = .ok plaintext := by
  have hns : nonce ≠ [] := by
    intro h0
    rw [h0] at hn
    exact absurd hn.symm (Nat.ne_of_gt e.nonceSize_pos)
  unfold Encryptor.encrypt at henc
  rw [if_neg hpt] at henc
  have hct : e.b64encode (nonce ++ e.gcmSeal nonce plaintext) = ct := by
    injection henc
  subst hct
  have hne2 : nonce ++ e.gcmSeal nonce plaintext ≠ [] :=
    List.append_ne_nil_of_left_ne_nil hns _
  have hlen : ¬ (nonce ++ e.gcmSeal nonce plaintext).length < e.nonceSize := by
    rw [List.length_append, hn]
    omega
  unfold Encryptor.decrypt
  rw [if_neg (e.encode_ne _ hne2), e.decode_encode]
  simp only [hlen, if_false, List.take_left' hn, List.drop_left' hn, e.open_seal]

/-- Claim C2 witness: a concrete round trip through the toy collaborators. -/
theorem c2_witness :
    enc1.decrypt ((enc1.encrypt nonce0 [7, 8, 9]).toOption.getD "") = .ok [7, 8, 9] := by
  have h := c2_decrypt_encrypt enc1 nonce0 [7, 8, 9]
    ((enc1.encrypt nonce0 [7, 8, 9]).toOption.getD "") (by decide) (by decide) (by rfl)
  exact h

/-- A ciphertext produced by `enc1` over plaintext `[7]` and nonce `nonce0`
(the toy codec writes the fourteen bytes `nonce0 ++ [7, 1]` one character
each). -/
def ct12 : String := bytesToString (nonce0 ++ [7, 1])

/-- Claim C5 counterexample: Decrypt does distinguish failure causes.
Decrypting `ct12` (encrypted under key1) under key2 fails with the AEAD
authentication error, while decrypting an input whose decoded bytes are
shorter than the nonce size fails with the distinct "ciphertext too short"
error, so wrong-key and truncated inputs do not receive one
indistinguishable error. -/
theorem c5_counterexample :
    enc1.encrypt nonce0 [7] = .ok ct12 ∧
    enc2.decrypt ct12 = .error .authFailure ∧
    enc2.decrypt (bytesToString [7, 1]) = .error .tooShort ∧
    CryptoErr.authFailure ≠ CryptoErr.tooShort :=
  ⟨rfl, rfl, rfl, by decide⟩

/-- Claim C5 as amended: every AEAD open failure — wrong key or tampered
bytes alike, any input on which gcm.Open rejects — is reported as the one
generic authentication error; but an input that base64-decodes to fewer
bytes than the nonce size is reported with the distinct "ciphertext too
short" error. -/
theorem c5_amended (e : Encryptor) (ct : String) (data : List Byte)
    (hne : ct ≠ "") (hdec : e.b64decode ct = some data) :
    (e.nonceSize ≤ data.length →
      e.gcmOpen (data.take e.nonceSize) (data.drop e.nonceSize) = none →
      e.decrypt ct = .error .authFailure) ∧
    (data.length < e.nonceSize → e.decrypt ct = .error .tooShort) := by
  unfold Encryptor.decrypt
  rw [if_neg hne, hdec]
  dsimp only
  constructor
  · intro hlen hopen
    rw [if_neg (Nat.not_lt.mpr hlen), hopen]
  · intro hshort
    rw [if_pos hshort]

/-- Claim C5 amended witness: both branches at concrete inputs. -/
theorem c5_amended_witness :
    enc2.decrypt ct12 = .error .authFailure ∧
    enc2.decrypt (bytesToString [7, 1]) = .error .tooShort := by
  have h1 := c5_amended enc2 ct12 (nonce0 ++ [7, 1]) (by decide) (by rfl)
  have h2 := c5_amended enc2 (bytesToString [7, 1]) [7, 1] (by decide) (by rfl)
  exact ⟨h1.1 (by decide) (by rfl), h2.2 (by decide)⟩

/-- Claim C6: any ciphertext whose base64-decoded byte length is smaller
than the AEAD nonce size makes Decrypt return an error (the embedding is a
total function, so no panic and no out-of-bounds access is possible, and an
`.error` result carries no plaintext). -/
theorem c6_short_input_errors (e : Encryptor) (ct : String) (data : List Byte)
    (hdec : e.b64decode ct = some data) (hshort : data.length < e.nonceSize) :
    ∃ err, e.decrypt ct = .error err := by
  unfold Encryptor.decrypt
  by_cases h0 : ct = ""
  · exact ⟨.emptyCiphertext, by rw [if_pos h0]⟩
  · refine ⟨.tooShort, ?_⟩
    rw [if_neg h0, hdec]
    dsimp only
    rw [if_pos hshort]

/-- Claim C6 witness: a three-byte input against the twelve-byte nonce. -/
theorem c6_witness : ∃ err, enc1.decrypt (bytesToString [1, 2, 3]) = .error err :=
  c6_short_input_errors enc1 (bytesToString [1, 2, 3]) [1, 2, 3] (by rfl) (by decide)

/-! ### internal/domain/config.go (src/unnamed/part_008) and
internal/repository/config_repository.go (src/unnamed/part_010)

A `ConfigVersion` document of the `config_versions` collection, restricted
to the fields `ActivateVersion` reads or writes (`config_id`,
`version_number`, `is_active`, `status`) plus its value snapshot.  The
ObjectID becomes a `Nat` (the operation is modelled after a successful
`ObjectIDFromHex`).  The collection becomes a list of documents;
`UpdateMany` updates every matching document and `UpdateOne` the first
matching document, and neither reports an error when nothing matches. -/

structure ConfigVersion where
  configId : Nat
  configKey : String
  versionNumber : Int
  value : String
  status : String
  isActive : Bool
  deriving DecidableEq, Repr

/-- First write of ActivateVersion: UpdateMany on filter
`config_id = cid` with `Set is_active = false`. -/
def deactivateAll (cid : Nat) (db : List ConfigVersion) : List ConfigVersion :=
  db.map fun v => if v.configId = cid then { v with isActive := false } else v

/-- Second write of ActivateVersion: UpdateOne on filter
`config_id = cid, version_number = vn` with
`Set is_active = true, status = "active"`; at most the first matching
document is updated. -/
def activateOne (cid : Nat) (vn : Int) : List ConfigVersion → List ConfigVersion
  | [] => []
  | v :: rest =>
    if v.configId = cid ∧ v.versionNumber = vn then
      { v with isActive := true, status := "active" } :: rest
    else
      v :: activateOne cid vn rest

/-- ConfigRepository.ActivateVersion: the two writes in sequence.  The Go
function returns an error only when a write fails at the driver; with the
store available it always reports success, matches or not. -/
def activateVersion (cid : Nat) (vn : Int) (db : List ConfigVersion) : List ConfigVersion :=
  activateOne cid vn (deactivateAll cid db)

/-- How many versions of config `cid` are currently active. -/
def countActive (cid : Nat) (db : List ConfigVersion) : Nat :=
  (db.filter fun v => v.configId == cid && v.isActive).length

/-- A two-version history for config 1: version 1 active, version 2 draft. -/
def db0 : List ConfigVersion :=
  [⟨1, "api.rate_limit", 1, "rps100", "active", true⟩,
   ⟨1, "api.rate_limit", 2, "rps200", "draft", false⟩]

/-- Claim C1 (refuting the atomicity part): ActivateVersion is the
deactivate-all write followed by a separate activate-one write, not one
atomic conditional write.  On the concrete history `db0`, after the first
write alone zero versions of config 1 are active (the window the claim
forbids), and interleaving the two writes of two concurrent activations —
both deactivate phases, then both activate phases — settles at two active
versions, violating the exactly-one invariant the sequential run (final
conjunct) does maintain. -/
theorem c1_nonatomic_window :
    activateVersion 1 2 db0 = activateOne 1 2 (deactivateAll 1 db0) ∧
    countActive 1 (deactivateAll 1 db0) = 0 ∧
    countActive 1 (activateOne 1 1 (activateOne 1 2 (deactivateAll 1 (deactivateAll 1 db0)))) = 2 ∧
    countActive 1 (activateVersion 1 2 db0) = 1 :=
  ⟨rfl, by decide, by decide, by decide⟩

/-- No document of `db` matches `(cid, vn)`. -/
def noSuchVersion (cid : Nat) (vn : Int) (db : List ConfigVersion) : Prop :=
  ∀ v ∈ db, ¬(v.configId = cid ∧ v.versionNumber = vn)

theorem activateOne_no_match (cid : Nat) (vn : Int) (db : List ConfigVersion)
    (h : noSuchVersion cid vn db) : activateOne cid vn db = db := by
  induction db with
  | nil => rfl
  | cons v rest ih =>
    rw [activateOne, if_neg (h v (List.mem_cons_self v rest))]
    rw [ih fun w hw => h w (List.mem_cons_of_mem v hw)]

theorem deactivateAll_inactive (cid : Nat) (db : List ConfigVersion) :
    ∀ v ∈ deactivateAll cid db, v.configId = cid → v.isActive = false := by
  intro v hv hcid
  obtain ⟨w, _, rfl⟩ := List.mem_map.mp hv
  by_cases h : w.configId = cid
  · simp [if_pos h]
  · rw [if_neg h] at hcid ⊢
    exact absurd hcid h

theorem deactivateAll_preserves (cid : Nat) (vn : Int) (db : List ConfigVersion)
    (h : noSuchVersion cid vn db) : noSuchVersion cid vn (deactivateAll cid db) := by
  intro v hv
  obtain ⟨w, hw, rfl⟩ := List.mem_map.mp hv
  have := h w hw
  by_cases hc : w.configId = cid
  · simp [hc] at this ⊢
    exact this
  · simp [hc]

theorem countActive_eq_zero (cid : Nat) (db : List ConfigVersion) :
    countActive cid db = 0 ↔ ∀ v ∈ db, v.configId = cid → v.isActive = false := by
  unfold countActive
  rw [List.length_eq_zero, List.filter_eq_nil_iff]
  constructor
  · intro h v hv hc
    have := h v hv
    simp [hc] at this
    exact this
  · intro h v hv
    by_cases hc : v.configId = cid
    · simp [hc, h v hv hc]
    · simp [hc]

/-- Claim C9: when no ConfigVersion with the given config_id and
version_number exists, ActivateVersion still reports success (the model is
a total function: neither UpdateMany nor UpdateOne errors on zero matches)
and leaves the config with zero active versions. -/
theorem c9_missing_version_zero_active (cid : Nat) (vn : Int) (db : List ConfigVersion)
    (h : noSuchVersion cid vn db) :
    countActive cid (activateVersion cid vn db) = 0 ∧
    ∀ v ∈ activateVersion cid vn db, v.configId = cid → v.isActive = false := by
  have heq : activateVersion cid vn db = deactivateAll cid db :=
    activateOne_no_match cid vn _ (deactivateAll_preserves cid vn db h)
  rw [heq]
  exact ⟨(countActive_eq_zero cid _).mpr (deactivateAll_inactive cid db),
    deactivateAll_inactive cid db⟩

/-- Claim C9 witness: activating the non-existent version 3 of config 1. -/
theorem c9_witness : countActive 1 (activateVersion 1 3 db0) = 0 :=
  (c9_missing_version_zero_active 1 3 db0 (by unfold noSuchVersion; decide)).1

/-! ### internal/domain (src/unnamed/part_008, src/internal/domain/secret.go)

The Go Validate methods take pointer receivers and assign a default status
in place; each is embedded as a function returning the receiver's final
state alongside the optional error message, mirroring the Go control flow
line by line. -/

structure Config where
  tenantId : String
  configKey : String
  value : String
  environment : String
  version : Int
  status : String
  deriving DecidableEq, Repr

/-- Config.Validate. -/
def Config.validate (c : Config) : Config × Option String :=
  if c.configKey = "" then (c, some "config_key is required")
  else if c.environment = "" then (c, some "environment is required")
  else if ¬(c.environment = "development" ∨ c.environment = "staging" ∨
      c.environment = "production") then
    (c, some "environment must be one of: development, staging, production")
  else
    let c1 := if c.status = "" then { c with status := "active" } else c
    if c1.status = "active" ∨ c1.status = "inactive" ∨ c1.status = "archived" then (c1, none)
    else (c1, some "status must be one of: active, inactive, archived")

/-- ConfigVersion.Validate (`ConfigID.IsZero()` becomes `configId = 0`). -/
def ConfigVersion.validate (cv : ConfigVersion) : ConfigVersion × Option String :=
  if cv.configId = 0 then (cv, some "config_id is required")
  else if cv.configKey = "" then (cv, some "config_key is required")
  else if cv.versionNumber < 1 then (cv, some "version_number must be positive")
  else
    let cv1 := if cv.status = "" then { cv with status := "draft" } else cv
    if cv1.status = "draft" ∨ cv1.status = "active" ∨ cv1.status = "archived" then (cv1, none)
    else (cv1, some "status must be one of: draft, active, archived")

/-- A `secrets` document.  ObjectIDs become `Nat`, `time.Time` and
`*time.Time` become `Int` and `Option Int` timestamps measured in hours
(the unit `GetSecretsNeedingRotation` divides by 24), and the free-form
metadata map becomes an association list. -/
structure Secret where
  id : Nat
  tenantId : String
  secretKey : String
  encryptedValue : String
  environment : String
  description : String
  rotationPolicy : String
  rotationDays : Int
  lastRotatedAt : Option Int
  expiresAt : Option Int
  status : String
  version : Int
  encryptionKeyId : String
  metadata : List (String × String)
  accessCount : Int
  lastAccessedAt : Option Int
  createdAt : Int
  updatedAt : Int
  createdBy : String
  updatedBy : String
  deriving DecidableEq, Repr

/-- Secret.Validate.  The status default and status check run before the
rotation-policy check, so a receiver can be mutated and still get an
error. -/
def Secret.validate (s : Secret) : Secret × Option String :=
  if s.secretKey = "" then (s, some "secret_key is required")
  else if s.environment = "" then (s, some "environment is required")
  else if ¬(s.environment = "development" ∨ s.environment = "staging" ∨
      s.environment = "production") then
    (s, some "environment must be one of: development, staging, production")
  else
    let s1 := if s.status = "" then { s with status := "active" } else s
    if ¬(s1.status = "active" ∨ s1.status = "expired" ∨ s1.status = "rotated") then
      (s1, some "status must be one of: active, expired, rotated")
    else if s1.rotationPolicy ≠ "" ∧
        ¬(s1.rotationPolicy = "manual" ∨ s1.rotationPolicy = "auto") then
      (s1, some "rotation_policy must be one of: manual, auto")
    else (s1, none)

/-- A `watch_subscriptions` document restricted to the fields Validate and
WatchRepository touch. -/
structure WatchSubscription where
  subscriberId : String
  tenantId : String
  serviceName : String
  callbackUrl : String
  patterns : List String
  environments : List String
  status : String
  failureCount : Int
  deriving DecidableEq, Repr

/-- WatchSubscription.Validate. -/
def WatchSubscription.validate (w : WatchSubscription) : WatchSubscription × Option String :=
  if w.subscriberId = "" then (w, some "subscriber_id is required")
  else if w.callbackUrl = "" then (w, some "callback_url is required")
  else if w.patterns = [] then (w, some "at least one pattern is required")
  else
    let w1 := if w.status = "" then { w with status := "active" } else w
    if w1.status = "active" ∨ w1.status = "paused" ∨ w1.status = "inactive" then (w1, none)
    else (w1, some "status must be one of: active, paused, inactive")

/-- WatchRepository.Create (src/unnamed/part_011): sets `FailureCount = 0`
and inserts; returns the stored document (the Go code also writes the new
ObjectID and timestamps back into it). -/
def watchCreate (db : List WatchSubscription) (w : WatchSubscription) :
    List WatchSubscription × WatchSubscription :=
  let w1 := { w with failureCount := 0 }
  (db ++ [w1], w1)

/-- Modelled from the spec: the WatchService.Subscribe glue is not under
src/ — only its HTTP caller (watch_handler.go) and WatchRepository are.
Per §4.5, Subscribe validates the subscription (ValidationError on
failure) and persists it via WatchRepository.Create. -/
def subscribeOp (db : List WatchSubscription) (w : WatchSubscription) :
    Except String (List WatchSubscription × WatchSubscription) :=
  match w.validate with
  | (_, some msg) => .error msg
  | (w1, none) => .ok (watchCreate db w1)

/-- A secret whose Validate call both mutates the receiver (defaults the
empty status) and then returns a validation error (bad rotation policy). -/
def badPolicySecret : Secret :=
  { id := 1, tenantId := "", secretKey := "db_password", encryptedValue := "x",
    environment := "production", description := "", rotationPolicy := "weekly",
    rotationDays := 0, lastRotatedAt := none, expiresAt := none, status := "",
    version := 1, encryptionKeyId := "", metadata := [], accessCount := 0,
    lastAccessedAt := none, createdAt := 0, updatedAt := 0, createdBy := "",
    updatedBy := "" }

/-- Claim C10: each Validate writes a default status into its receiver
whenever the status is empty and the checks before the default pass
("active" for Config, Secret and WatchSubscription, "draft" for
ConfigVersion), and Validate is not a pure check: `badPolicySecret` is
mutated and the same call still returns a validation error. -/
theorem c10_validate_mutates_receiver :
    (∀ c : Config, c.configKey ≠ "" →
      (c.environment = "development" ∨ c.environment = "staging" ∨
        c.environment = "production") →
      c.status = "" → c.validate.1.status = "active" ∧ c.validate.2 = none) ∧
    (∀ cv : ConfigVersion, cv.configId ≠ 0 → cv.configKey ≠ "" →
      ¬ cv.versionNumber < 1 →
      cv.status = "" → cv.validate.1.status = "draft" ∧ cv.validate.2 = none) ∧
    (∀ s : Secret, s.secretKey ≠ "" →
      (s.environment = "development" ∨ s.environment = "staging" ∨
        s.environment = "production") →
      s.status = "" → s.validate.1.status = "active") ∧
    (∀ w : WatchSubscription, w.subscriberId ≠ "" → w.callbackUrl ≠ "" →
      w.patterns ≠ [] →
      w.status = "" → w.validate.1.status = "active" ∧ w.validate.2 = none) ∧
    (badPolicySecret.validate.2 =
        some "rotation_policy must be one of: manual, auto" ∧
      badPolicySecret.validate.1 ≠ badPolicySecret ∧
      badPolicySecret.validate.1.status = "active") := by
  refine ⟨?_, ?_, ?_, ?_, by decide⟩
  · intro c h1 h2 h3
    have henv : c.environment ≠ "" := by
      rcases h2 with h | h | h <;> simp [h]
    simp [Config.validate, h1, henv, not_not.mpr h2, h3]
  · intro cv h1 h2 h3 h4
    simp [ConfigVersion.validate, h1, h2, h3, h4]
  · intro s h1 h2 h3
    rcases h2 with h | h | h
    all_goals
      simp [Secret.validate, h1, h, h3]
      split <;> rfl
  · intro w h1 h2 h3 h4
    simp [WatchSubscription.validate, h1, h2, h3, h4]

/-- Claim C10 witness: the Config branch at a concrete config with an
empty status. -/
theorem c10_witness :
    (Config.validate ⟨"", "db.timeout", "30s", "production", 1, ""⟩).1.status = "active" ∧
    (Config.validate ⟨"", "db.timeout", "30s", "production", 1, ""⟩).2 = none :=
  c10_validate_mutates_receiver.1 ⟨"", "db.timeout", "30s", "production", 1, ""⟩
    (by decide) (Or.inr (Or.inr rfl)) rfl

/-- A subscription with all three required fields present but a non-empty
invalid status. -/
def badStatusSub : WatchSubscription :=
  ⟨"svc-1", "", "", "http://example.com/webhook", ["db.*"], [], "bogus", 0⟩

/-- Claim C7 counterexample: Subscribe can fail with a validation error
even though subscriber_id, callback_url and the pattern list are all
non-empty — a non-empty status outside active, paused, inactive is also
rejected, so "fails iff one of the three is empty" is false. -/
theorem c7_counterexample :
    badStatusSub.subscriberId ≠ "" ∧ badStatusSub.callbackUrl ≠ "" ∧
    badStatusSub.patterns ≠ [] ∧
    subscribeOp [] badStatusSub =
      .error "status must be one of: active, paused, inactive" :=
  ⟨by decide, by decide, by decide, rfl⟩

/-- The status Validate leaves on the subscription: the default "active"
when the input status is empty, the input status otherwise. -/
def effStatus (w : WatchSubscription) : String :=
  if w.status = "" then "active" else w.status

/-- The statuses WatchSubscription.Validate accepts. -/
def wsStatusOk (s : String) : Prop := s = "active" ∨ s = "paused" ∨ s = "inactive"

/-- Claim C7 as amended: Subscribe fails with a validation error iff
subscriber_id is empty, callback_url is empty, the pattern list is empty,
or the (defaulted) status is not one of active, paused, inactive; on
success the stored subscription carries the defaulted status — "active"
whenever the input status was empty — and failure_count 0, and is appended
to the collection. -/
theorem c7_subscribe_amended (db : List WatchSubscription) (w : WatchSubscription) :
    ((∃ msg, subscribeOp db w = .error msg) ↔
      (w.subscriberId = "" ∨ w.callbackUrl = "" ∨ w.patterns = [] ∨
        ¬ wsStatusOk (effStatus w))) ∧
    (∀ db' w', subscribeOp db w = .ok (db', w') →
      w'.failureCount = 0 ∧ w'.status = effStatus w ∧
      (w.status = "" → w'.status = "active") ∧ db' = db ++ [w']) := by
  unfold subscribeOp WatchSubscription.validate watchCreate effStatus wsStatusOk
  by_cases h1 : w.subscriberId = ""
  · simp [h1]
  by_cases h2 : w.callbackUrl = ""
  · simp [h1, h2]
  by_cases h3 : w.patterns = []
  · simp [h1, h2, h3]
  by_cases h4 : w.status = ""
  · simp [h1, h2, h3, h4]
  · simp only [if_neg h1, if_neg h2, if_neg h3, if_neg h4]
    by_cases h5 : w.status = "active" ∨ w.status = "paused" ∨ w.status = "inactive"
    · simp [h5, h1, h2, h3, h4]
    · simp [h5]

/-- Claim C7 amended witness: subscribing a valid subscription with empty
status and a non-zero input failure_count stores it with status "active"
and failure_count 0. -/
theorem c7_witness :
    (WatchSubscription.mk "svc-1" "" "" "http://example.com/webhook" ["db.*"] [] "active" 0).failureCount = 0 ∧
    (WatchSubscription.mk "svc-1" "" "" "http://example.com/webhook" ["db.*"] [] "active" 0).status = "active" := by
  have h := (c7_subscribe_amended []
      ⟨"svc-1", "", "", "http://example.com/webhook", ["db.*"], [], "", 5⟩).2
    [⟨"svc-1", "", "", "http://example.com/webhook", ["db.*"], [], "active", 0⟩]
    ⟨"svc-1", "", "", "http://example.com/webhook", ["db.*"], [], "active", 0⟩ rfl
  exact ⟨h.1, h.2.2.1 rfl⟩

/-! ### internal/repository/secret_repository.go GetSecretsNeedingRotation -/

/-- The cursor-loop condition of GetSecretsNeedingRotation: a secret is
appended only when `LastRotatedAt != nil` and `RotationDays > 0` and the
days elapsed since the last rotation reach RotationDays.  Go computes
`time.Since(*last).Hours()/24 >= float64(days)`; with the clock and the
timestamps measured in hours this is the exact comparison
`now - last ≥ 24 * days`. -/
def rotationDue (now : Int) (s : Secret) : Bool :=
  match s.lastRotatedAt with
  | none => false
  | some last => decide (0 < s.rotationDays) && decide (24 * s.rotationDays ≤ now - last)

/-- SecretRepository.GetSecretsNeedingRotation: the Mongo filter keeps
`rotation_policy = "auto"` and `status = "active"`; the loop then keeps the
secrets `rotationDue` accepts. -/
def getSecretsNeedingRotation (now : Int) (db : List Secret) : List Secret :=
  (db.filter fun s => s.rotationPolicy == "auto" && s.status == "active").filter
    (rotationDue now)

/-- A never-rotated auto-rotation secret: policy auto, active,
rotation_days 1, last_rotated_at nil, created at hour 0. -/
def autoSecret : Secret :=
  { id := 2, tenantId := "", secretKey := "api_token", encryptedValue := "x",
    environment := "production", description := "", rotationPolicy := "auto",
    rotationDays := 1, lastRotatedAt := none, expiresAt := none, status := "active",
    version := 1, encryptionKeyId := "", metadata := [], accessCount := 0,
    lastAccessedAt := none, createdAt := 0, updatedAt := 0, createdBy := "",
    updatedBy := "" }

/-- Claim C3 (refuted by the nil case): a secret with
rotation_policy=auto, status=active, rotation_days=1 and a nil
last_rotated_at is never reported as needing rotation — at every clock
reading, including two days (48 hours) after its creation, where the claim
says it must appear.  The final conjunct confirms the non-nil path: the
same secret with last_rotated_at set at hour 0 is reported at hour 48. -/
theorem c3_nil_last_rotated_never_due :
    autoSecret.rotationPolicy = "auto" ∧ autoSecret.status = "active" ∧
    autoSecret.rotationDays = 1 ∧ autoSecret.lastRotatedAt = none ∧
    (∀ now : Int, getSecretsNeedingRotation now [autoSecret] = []) ∧
    getSecretsNeedingRotation (autoSecret.createdAt + 48) [autoSecret] = [] ∧
    getSecretsNeedingRotation 48 [{ autoSecret with lastRotatedAt := some 0 }] =
      [{ autoSecret with lastRotatedAt := some 0 }] := by
  refine ⟨rfl, rfl, rfl, rfl, ?_, ?_, by decide⟩
  · intro now
    simp [getSecretsNeedingRotation, rotationDue, autoSecret]
  · simp [getSecretsNeedingRotation, rotationDue, autoSecret]

/-! ### The subscription pattern matcher (spec §4.5)

The WatchService that implements the matcher is not under src/ — only its
HTTP caller (watch_handler.go) and WatchRepository are — so the matcher is
modelled from the specification. -/

/-- Modelled from the spec: the WatchService tokenizer is missing from
src/; §4.5 tokenizes a config key or pattern into dot-separated segments
(strings.Split on "."), so "api.users.timeout" becomes
["api", "users", "timeout"] and "" becomes [""]. -/
def splitSegsAux : List Char → List Char → List String
  | [], acc => [String.mk acc.reverse]
  | c :: cs, acc =>
    if c = '.' then String.mk acc.reverse :: splitSegsAux cs []
    else splitSegsAux cs (c :: acc)

def splitKey (s : String) : List String := splitSegsAux s.data []

/-- Modelled from the spec: the WatchService segment matcher is missing
from src/; §4.5 — a pattern segment `*` matches exactly one key segment of
any value, a literal segment must equal its key segment, a final `**`
matches zero or more remaining key segments, and the segment counts must
align for patterns without a final `**`. -/
def matchSegs : List String → List String → Bool
  | [], ks => ks.isEmpty
  | p :: ps, ks =>
    if p = "**" ∧ ps = [] then true
    else
      match ks with
      | [] => false
      | k :: ks2 => (p == "*" || p == k) && matchSegs ps ks2

/-- A pattern matches a key when their segment lists match. -/
def matchPattern (pat key : String) : Bool :=
  matchSegs (splitKey pat) (splitKey key)

/-- The declarative one-segment relation of §4.5: `*` or an equal literal. -/
def segMatches (p k : String) : Prop := p = "*" ∨ p = k

theorem matchSegs_nil (ks : List String) : matchSegs [] ks = ks.isEmpty := rfl

theorem matchSegs_cons (p : String) (ps ks : List String) :
    matchSegs (p :: ps) ks =
      if p = "**" ∧ ps = [] then true
      else
        match ks with
        | [] => false
        | k :: ks2 => (p == "*" || p == k) && matchSegs ps ks2 := rfl

theorem matchSegs_no_wild (ps : List String) (h : "**" ∉ ps) (ks : List String) :
    matchSegs ps ks = true ↔ List.Forall₂ segMatches ps ks := by
  induction ps generalizing ks with
  | nil =>
    cases ks <;> simp [matchSegs_nil]
  | cons p ps ih =>
    have hp : p ≠ "**" := fun hc => h (hc ▸ List.mem_cons_self p ps)
    have hps : "**" ∉ ps := fun hc => h (List.mem_cons_of_mem p hc)
    rw [matchSegs_cons, if_neg (fun hc => hp hc.1)]
    cases ks with
    | nil => simp
    | cons k ks2 =>
      simp [ih hps, segMatches, List.forall₂_cons, Bool.and_eq_true, or_comm]

theorem matchSegs_trailing_wild (ps : List String) (h : "**" ∉ ps) (ks : List String) :
    matchSegs (ps ++ ["**"]) ks = true ↔
      ∃ ks1 ks2, ks = ks1 ++ ks2 ∧ List.Forall₂ segMatches ps ks1 := by
  induction ps generalizing ks with
  | nil =>
    rw [List.nil_append, matchSegs_cons, if_pos ⟨rfl, rfl⟩]
    simp
  | cons p ps ih =>
    have hp : p ≠ "**" := fun hc => h (hc ▸ List.mem_cons_self p ps)
    have hps : "**" ∉ ps := fun hc => h (List.mem_cons_of_mem p hc)
    rw [List.cons_append, matchSegs_cons, if_neg (fun hc => hp hc.1)]
    cases ks with
    | nil =>
      simp only [Bool.false_eq_true, false_iff]
      rintro ⟨ks1, ks2, hks, hf⟩
      obtain ⟨h1, h2⟩ := List.append_eq_nil.mp hks.symm
      subst h1
      cases hf
    | cons k ks2 =>
      rw [Bool.and_eq_true, ih hps]
      constructor
      · rintro ⟨hm, t1, t2, ht, hf⟩
        refine ⟨k :: t1, t2, by simp [ht], List.Forall₂.cons ?_ hf⟩
        rcases Bool.or_eq_true _ _ |>.mp hm with hm1 | hm2
        · exact Or.inl (by simpa using hm1)
        · exact Or.inr (by simpa using hm2)
      · rintro ⟨ks1, t2, hks, hf⟩
        cases hf with
        | cons hm hf2 =>
          rename_i b l
          rw [List.cons_append, List.cons.injEq] at hks
          obtain ⟨rfl, rfl⟩ := hks
          refine ⟨?_, l, t2, rfl, hf2⟩
          rcases hm with hm | hm
          · simp [hm]
          · simp [hm]

/-- Claim C4: the matcher tokenizes pattern and key on dots; for patterns
without `**` a match holds iff the segments align pointwise (`*` matching
any one segment, literals matching exactly — `Forall₂` forces equal
segment counts); a pattern ending in `**` matches iff its head segments
match a prefix of the key segments with arbitrary remainder; and the
spec's concrete examples behave as stated, with `**` matching every
non-empty key. -/
theorem c4_pattern_matching :
    (∀ ps ks, "**" ∉ ps →
      (matchSegs ps ks = true ↔ List.Forall₂ segMatches ps ks)) ∧
    (∀ ps ks, "**" ∉ ps →
      (matchSegs (ps ++ ["**"]) ks = true ↔
        ∃ ks1 ks2, ks = ks1 ++ ks2 ∧ List.Forall₂ segMatches ps ks1)) ∧
    matchPattern "db.*" "db.timeout" = true ∧
    matchPattern "db.*" "db.timeout.extra" = false ∧
    matchPattern "db.*" "dbx.timeout" = false ∧
    matchPattern "api.*.timeout" "api.users.timeout" = true ∧
    matchPattern "api.*.timeout" "api.timeout" = false ∧
    (∀ key, key ≠ "" → matchPattern "**" key = true) := by
  refine ⟨fun ps ks h => matchSegs_no_wild ps h ks,
    fun ps ks h => matchSegs_trailing_wild ps h ks,
    by decide, by decide, by decide, by decide, by decide, ?_⟩
  intro key hk
  have : splitKey "**" = ["**"] := rfl
  rw [matchPattern, this, matchSegs_cons, if_pos ⟨rfl, rfl⟩]

/-- Claim C4 witness: the no-wildcard characterization applied to the
pattern segments of "db.*" and the key segments of "db.timeout", and the
`**` rule applied to a concrete key. -/
theorem c4_witness :
    matchSegs ["db", "*"] ["db", "timeout"] = true ∧
    matchPattern "**" "api.users.timeout" = true := by
  constructor
  · exact (c4_pattern_matching.1 ["db", "*"] ["db", "timeout"] (by decide)).mpr
      (List.Forall₂.cons (Or.inr rfl) (List.Forall₂.cons (Or.inl rfl) List.Forall₂.nil))
  · exact c4_pattern_matching.2.2.2.2.2.2.2 "api.users.timeout" (by decide)

/-! ### Secret JSON serialization and masking
(src/internal/domain/secret.go)

encoding/json serializes each exported struct field under its json tag;
the tag `json:"-"` on EncryptedValue excludes that field from the output.
The serialization is embedded as the ordered field list encoding/json
produces for a Secret. -/

/-- A rendered JSON field value (flat shapes suffice for a Secret). -/
inductive JVal
  | jnum (n : Nat)
  | jstr (s : String)
  | jint (n : Int)
  | jnullable (t : Option Int)
  | jpairs (kvs : List (String × String))
  deriving DecidableEq, Repr

/-- The JSON object encoding/json produces for a Secret: every exported
field under its json tag, in declaration order.  EncryptedValue carries
the tag `json:"-"` and is omitted. -/
def secretToJSON (s : Secret) : List (String × JVal) :=
  [("id", .jnum s.id),
   ("tenant_id", .jstr s.tenantId),
   ("secret_key", .jstr s.secretKey),
   ("environment", .jstr s.environment),
   ("description", .jstr s.description),
   ("rotation_policy", .jstr s.rotationPolicy),
   ("rotation_days", .jint s.rotationDays),
   ("last_rotated_at", .jnullable s.lastRotatedAt),
   ("expires_at", .jnullable s.expiresAt),
   ("status", .jstr s.status),
   ("version", .jint s.version),
   ("encryption_key_id", .jstr s.encryptionKeyId),
   ("metadata", .jpairs s.metadata),
   ("access_count", .jint s.accessCount),
   ("last_accessed_at", .jnullable s.lastAccessedAt),
   ("created_at", .jint s.createdAt),
   ("updated_at", .jint s.updatedAt),
   ("created_by", .jstr s.createdBy),
   ("updated_by", .jstr s.updatedBy)]

/-- Secret.MaskedValue: returns the fixed placeholder, reading nothing
from the receiver. -/
def Secret.maskedValue (_ : Secret) : String := "***MASKED***"

/-- Claim C8: the JSON serialization of a Secret is unchanged under any
replacement of encrypted_value (the field is non-exported to JSON), and
MaskedValue returns the same fixed placeholder for every secret — in
particular it never depends on the stored value. -/
theorem c8_json_independent_of_encrypted_value :
    (∀ (s : Secret) (v : String),
      secretToJSON { s with encryptedValue := v } = secretToJSON s) ∧
    (∀ s : Secret, s.maskedValue = "***MASKED***") ∧
    (∀ (s : Secret) (v : String),
      Secret.maskedValue { s with encryptedValue := v } = s.maskedValue) :=
  ⟨fun _ _ => rfl, fun _ => rfl, fun _ _ => rfl⟩

end SysConfig
